import Mathlib

/-
Verification of the drawer-editor core: the schema transformer
(tree/flat conversion), the element and canvas Zustand stores, the CSS
Paint Worklet registry/loader, and the render engine.  Each definition
is a shallow embedding of the corresponding TypeScript source; fallible
or unboundedly recursive code is embedded with explicit `Except`
results and fuel.
-/

namespace Drawer

/-- A string-keyed map, the embedding of a TypeScript
`Record<string, T>`; assignment overwrites the previous binding. -/
def StrMap (α : Type) : Type := String → Option α

/-- Record assignment `m[k] = v`. -/
def mapUpdate {α : Type} (m : StrMap α) (k : String) (v : α) : StrMap α :=
  fun x => if x = k then some v else m x

/-- The empty record. -/
def mapEmpty {α : Type} : StrMap α := fun _ => none

/-- `ElementState` from `core/schema/types.ts` (bundled in the scripts
sources): the boolean-flag state object of an element
(`selected/hovered/active/locked/hidden`). -/
structure ElementState where
  selected : Bool
  hovered : Bool
  active : Bool
  locked : Bool
  hidden : Bool
deriving DecidableEq

/-- `ElementMetadata` from `core/schema/types.ts`: timestamps, version,
tags and optional category.  The optional `createdBy` and `description`
passthrough fields, which no embedded function reads, are omitted. -/
structure ElementMetadata where
  createdAt : Int
  updatedAt : Int
  version : String
  tags : List String
  category : Option String
deriving DecidableEq

/-- `ElementStyle` from `core/schema/types.ts`: a map of optional CSS
properties, embedded as an association list whose values are the CSS
values as strings; entries that would be `undefined`/`null` in
TypeScript are simply absent. -/
abbrev ElementStyle : Type := List (String × String)

/-- The free-form `Record<string, any>` props/data bag of an element
(`core/schema/types.ts`), embedded as a string-valued association
list. -/
abbrev PropsBag : Type := List (String × String)

/-- `ElementData` from `core/schema/types.ts`: an id, type tag, name,
style map, state object, metadata, optional parent id and children id
list, and free-form `props`/`data` bags.  The optional `worklet`
config passthrough field, which no embedded function reads, is
omitted. -/
structure ElementData where
  id : String
  type : String
  name : String
  style : ElementStyle
  state : ElementState
  metadata : ElementMetadata
  parentId : Option String
  childrenIds : Option (List String)
  props : Option PropsBag
  data : Option PropsBag
deriving DecidableEq

/-- `ElementNode` from `core/schema/types.ts`: `ElementData` together
with an array of child nodes (the tree form of the document). -/
inductive ElementNode : Type where
  | mk (data : ElementData) (children : List ElementNode)

/-- The `ElementData` part of a node. -/
def ElementNode.data : ElementNode → ElementData
  | .mk d _ => d

/-- The children array of a node. -/
def ElementNode.children : ElementNode → List ElementNode
  | .mk _ cs => cs

mutual

/-- Number of nodes of a tree. -/
def ElementNode.size : ElementNode → Nat
  | .mk _ cs => 1 + sizeList cs

/-- Total number of nodes of a forest. -/
def sizeList : List ElementNode → Nat
  | [] => 0
  | c :: cs => c.size + sizeList cs

end

mutual

/-- All nodes of a tree, in preorder. -/
def ElementNode.nodes : ElementNode → List ElementNode
  | .mk d cs => .mk d cs :: nodesList cs

/-- All nodes of a forest, in preorder. -/
def nodesList : List ElementNode → List ElementNode
  | [] => []
  | c :: cs => c.nodes ++ nodesList cs

end

/-- The ids of all nodes of a tree, in preorder. -/
def nodeIds (t : ElementNode) : List String :=
  t.nodes.map (fun n => n.data.id)

/-- The ids of all nodes of a forest, in preorder. -/
def idsList (cs : List ElementNode) : List String :=
  (nodesList cs).map (fun n => n.data.id)

/-- A tree is children-consistent when every node's `childrenIds` list is
exactly the list of ids of its children array, in order. -/
def ConsistentTree (t : ElementNode) : Prop :=
  ∀ n ∈ t.nodes, n.data.childrenIds = some (n.children.map (fun c => c.data.id))

instance (t : ElementNode) : Decidable (ConsistentTree t) := by
  unfold ConsistentTree; infer_instance

namespace SchemaTransformer

mutual

/-- The `traverse` closure of `SchemaTransformer.nodeToFlat`: writes
`result[current.id] = elementData` (the node minus its `children`
field), then recurses into the children in order. -/
def traverseNode : ElementNode → StrMap ElementData → StrMap ElementData
  | .mk d cs, result => traverseList cs (mapUpdate result d.id d)

/-- The `children.forEach(child => traverse(child))` part of `traverse`. -/
def traverseList : List ElementNode → StrMap ElementData → StrMap ElementData
  | [], result => result
  | c :: cs, result => traverseList cs (traverseNode c result)

end

/-- `SchemaTransformer.nodeToFlat`: flattens an element tree into a
`Record<string, ElementData>` by preorder traversal. -/
def nodeToFlat (node : ElementNode) : StrMap ElementData :=
  traverseNode node mapEmpty

/-- `SchemaTransformer.flatToTree`: rebuilds the tree rooted at `rootId`
from a flat record, following `childrenIds` (absent treated as `[]`) and
skipping ids that are missing from the record.  The TypeScript original
recurses without bound on cyclic data; the embedding makes the recursion
depth explicit with `fuel`. -/
def flatToTree : Nat → StrMap ElementData → String → Option ElementNode
  | 0, _, _ => none
  | fuel + 1, flatData, rootId =>
    match flatData rootId with
    | none => none
    | some data =>
      let childIds := data.childrenIds.getD []
      let children := childIds.filterMap (fun childId => flatToTree fuel flatData childId)
      some (.mk data children)

end SchemaTransformer

/-! Basic facts about preorder node lists, ids and sizes. -/

theorem nodes_mk (d : ElementData) (cs : List ElementNode) :
    (ElementNode.mk d cs).nodes = .mk d cs :: nodesList cs := by
  rw [ElementNode.nodes]

theorem nodesList_cons (c : ElementNode) (cs : List ElementNode) :
    nodesList (c :: cs) = c.nodes ++ nodesList cs := by
  rw [nodesList]

theorem nodeIds_mk (d : ElementData) (cs : List ElementNode) :
    nodeIds (.mk d cs) = d.id :: idsList cs := by
  simp [nodeIds, ElementNode.nodes, idsList, ElementNode.data]

theorem idsList_cons (c : ElementNode) (cs : List ElementNode) :
    idsList (c :: cs) = nodeIds c ++ idsList cs := by
  simp [idsList, nodesList, nodeIds]

theorem mem_nodes_self (t : ElementNode) : t ∈ t.nodes := by
  match t with
  | .mk d cs => rw [nodes_mk]; exact List.mem_cons_self _ _

theorem mem_nodesList_of_mem {c : ElementNode} {cs : List ElementNode} {n : ElementNode}
    (hc : c ∈ cs) (hn : n ∈ c.nodes) : n ∈ nodesList cs := by
  induction cs with
  | nil => cases hc
  | cons a rest ih =>
    rw [nodesList_cons, List.mem_append]
    rcases List.mem_cons.mp hc with h | h
    · exact Or.inl (h ▸ hn)
    · exact Or.inr (ih h)

theorem size_pos (t : ElementNode) : 1 ≤ t.size := by
  match t with
  | .mk d cs => rw [ElementNode.size]; omega

theorem size_le_sizeList {c : ElementNode} {cs : List ElementNode} (hc : c ∈ cs) :
    c.size ≤ sizeList cs := by
  induction cs with
  | nil => cases hc
  | cons a rest ih =>
    rw [sizeList]
    rcases List.mem_cons.mp hc with h | h
    · subst h; omega
    · have := ih h; omega

/-! Lookup behaviour of the `nodeToFlat` traversal. -/

mutual

theorem traverseNode_not_mem (t : ElementNode) (m : StrMap ElementData) (x : String)
    (h : x ∉ nodeIds t) : SchemaTransformer.traverseNode t m x = m x := by
  match t with
  | .mk d cs =>
    rw [nodeIds_mk, List.mem_cons] at h
    push_neg at h
    rw [SchemaTransformer.traverseNode, traverseList_not_mem cs _ x h.2]
    simp [mapUpdate, h.1]

theorem traverseList_not_mem (cs : List ElementNode) (m : StrMap ElementData) (x : String)
    (h : x ∉ idsList cs) : SchemaTransformer.traverseList cs m x = m x := by
  match cs with
  | [] => rw [SchemaTransformer.traverseList]
  | c :: rest =>
    rw [idsList_cons, List.mem_append] at h
    push_neg at h
    rw [SchemaTransformer.traverseList, traverseList_not_mem rest _ x h.2,
      traverseNode_not_mem c m x h.1]

end

mutual

theorem traverseNode_mem (t : ElementNode) (m : StrMap ElementData) (n : ElementNode)
    (hd : (nodeIds t).Nodup) (hn : n ∈ t.nodes) :
    SchemaTransformer.traverseNode t m n.data.id = some n.data := by
  match t with
  | .mk d cs =>
    rw [nodes_mk, List.mem_cons] at hn
    rw [nodeIds_mk, List.nodup_cons] at hd
    rw [SchemaTransformer.traverseNode]
    rcases hn with hn | hn
    · subst hn
      simp only [ElementNode.data]
      rw [traverseList_not_mem cs _ _ hd.1]
      simp [mapUpdate]
    · exact traverseList_mem cs _ n hd.2 hn

theorem traverseList_mem (cs : List ElementNode) (m : StrMap ElementData) (n : ElementNode)
    (hd : (idsList cs).Nodup) (hn : n ∈ nodesList cs) :
    SchemaTransformer.traverseList cs m n.data.id = some n.data := by
  match cs with
  | c :: rest =>
    rw [nodesList_cons, List.mem_append] at hn
    rw [idsList_cons, List.nodup_append] at hd
    rw [SchemaTransformer.traverseList]
    rcases hn with hn | hn
    · have hx : n.data.id ∉ idsList rest := by
        intro hmem
        exact hd.2.2 (by simp [nodeIds]; exact ⟨n, hn, rfl⟩) hmem
      rw [traverseList_not_mem rest _ _ hx]
      exact traverseNode_mem c m n hd.1 hn
    · exact traverseList_mem rest _ n hd.2.1 hn

end

/-- A `filterMap` whose function is the identity-as-some on every member
of the list leaves the list unchanged. -/
theorem filterMap_eq_self_of_mem {α : Type} (l : List α) (f : α → Option α)
    (h : ∀ a ∈ l, f a = some a) : l.filterMap f = l := by
  induction l with
  | nil => rfl
  | cons a rest ih =>
    rw [List.filterMap_cons, h a (List.mem_cons_self _ _), ih (fun b hb => h b (List.mem_cons_of_mem _ hb))]

/-- Rebuilding from any record that agrees with the tree on every node's
id recovers the tree, provided `childrenIds` are consistent and the fuel
covers the tree size. -/
theorem flatToTree_agree :
    ∀ (fuel : Nat) (t : ElementNode) (m : StrMap ElementData),
      (∀ n ∈ t.nodes, m n.data.id = some n.data) → ConsistentTree t → t.size ≤ fuel →
      SchemaTransformer.flatToTree fuel m t.data.id = some t := by
  intro fuel
  induction fuel with
  | zero =>
    intro t m _ _ hsz
    exact absurd hsz (by have := size_pos t; omega)
  | succ fuel ih =>
    intro t m hag hcons hsz
    match t with
    | .mk d cs =>
      have hd : m d.id = some d := by
        have := hag _ (mem_nodes_self (.mk d cs))
        simpa [ElementNode.data] using this
      have hch : d.childrenIds = some (cs.map (fun c => c.data.id)) := by
        have := hcons _ (mem_nodes_self (.mk d cs))
        simpa [ElementNode.data, ElementNode.children] using this
      have hszl : sizeList cs ≤ fuel := by
        rw [ElementNode.size] at hsz; omega
      simp only [ElementNode.data]
      rw [SchemaTransformer.flatToTree]
      simp only [hd, hch, Option.getD_some]
      rw [List.filterMap_map]
      have hrec : ∀ c ∈ cs, SchemaTransformer.flatToTree fuel m c.data.id = some c := by
        intro c hc
        refine ih c m ?_ ?_ ?_
        · intro n hn
          exact hag n (by rw [nodes_mk]; exact List.mem_cons_of_mem _ (mem_nodesList_of_mem hc hn))
        · intro n hn
          exact hcons n (by rw [nodes_mk]; exact List.mem_cons_of_mem _ (mem_nodesList_of_mem hc hn))
        · exact le_trans (size_le_sizeList hc) hszl
      rw [filterMap_eq_self_of_mem cs _ (fun c hc => by
        simpa [Function.comp] using hrec c hc)]

/-- Claim C1: for every element tree with pairwise distinct node ids
whose `childrenIds` lists mirror the children arrays,
`flatToTree (nodeToFlat t) t.id` returns the tree itself — in
particular the same node ids, the same per-node fields apart from
`children`, and the same parent-child structure and child order. -/
theorem c1_flatten_unflatten_roundtrip (t : ElementNode) (fuel : Nat)
    (hdistinct : (nodeIds t).Nodup) (hcons : ConsistentTree t) (hfuel : t.size ≤ fuel) :
    SchemaTransformer.flatToTree fuel (SchemaTransformer.nodeToFlat t) t.data.id = some t :=
  flatToTree_agree fuel t _
    (fun n hn => traverseNode_mem t mapEmpty n hdistinct hn) hcons hfuel

/-- A minimal concrete element for witnesses and counterexamples. -/
def sampleElement (id : String) (childIds : List String) : ElementData :=
  { id := id
    type := "container"
    name := id
    style := []
    state := ⟨false, false, false, false, false⟩
    metadata := ⟨0, 0, "1.0.0", [], none⟩
    parentId := none
    childrenIds := some childIds
    props := none
    data := none }

/-- A three-node concrete tree: a root with two leaf children. -/
def c1SampleTree : ElementNode :=
  .mk (sampleElement "root" ["a", "b"])
    [.mk (sampleElement "a" []) [], .mk (sampleElement "b" []) []]

/-- Witness for claim C1 at a concrete three-node tree. -/
theorem c1_flatten_unflatten_roundtrip_witness :
    (nodeIds c1SampleTree).Nodup ∧ ConsistentTree c1SampleTree ∧ c1SampleTree.size ≤ 3 ∧
    SchemaTransformer.flatToTree 3 (SchemaTransformer.nodeToFlat c1SampleTree)
      c1SampleTree.data.id = some c1SampleTree :=
  ⟨by decide, by decide, by decide,
    c1_flatten_unflatten_roundtrip c1SampleTree 3 (by decide) (by decide) (by decide)⟩

/-! The element store (`store/slices/element.store.ts`). -/

/-- A structured validation error or warning (field, message, code),
`ValidationError` of `core/schema/validator.ts` (bundled in the scripts
sources).  Its optional `value` passthrough field, never set by the
store's fixed error records, is omitted. -/
structure ValidationIssue where
  field : String
  message : String
  code : String
deriving DecidableEq

/-- `ValidationResult` from `core/schema/validator.ts`: a valid flag
plus structured error and warning lists. -/
structure ValidationResult where
  valid : Bool
  errors : List ValidationIssue
  warnings : List ValidationIssue
deriving DecidableEq

/-- The canvas grid configuration of `core/schema/types.ts`. -/
structure GridConfig where
  enabled : Bool
  size : ℚ
  color : String

/-- The canvas zoom configuration of `core/schema/types.ts`. -/
structure ZoomConfig where
  current : ℚ
  min : ℚ
  max : ℚ
  step : ℚ

/-- `CanvasConfig` from `core/schema/types.ts`.  The optional `grid`
and `zoom` sub-configurations are modelled as present: every
constructor in the sources (`createProject`, `simpleToProject`) fills
them in with defaults, and no embedded function reads them. -/
structure CanvasConfig where
  id : String
  name : String
  width : ℚ
  height : ℚ
  backgroundColor : String
  grid : GridConfig
  zoom : ZoomConfig
  elements : List String

/-- `ProjectConfig` from `core/schema/types.ts`: a canvas configuration
together with a flat `Record<id, ElementData>` map and the project
metadata. -/
structure ProjectConfig where
  id : String
  name : String
  description : Option String
  createdAt : Int
  updatedAt : Int
  canvas : CanvasConfig
  elements : StrMap ElementData
  version : String

/-- A history entry of the element store.  The `data` field is the
free-form `any` payload, which the store logic never inspects; it is
embedded as a plain string tag. -/
structure HistoryEntry where
  type : String
  data : String
  timestamp : Int
deriving DecidableEq

/-- The state fields of the element store. -/
structure ElementStoreState where
  currentProject : Option ProjectConfig
  elements : StrMap ElementData
  rootElementId : Option String
  selectedElementId : Option String
  draggingElementId : Option String
  hoveredElementId : Option String
  history : List HistoryEntry
  historyIndex : Int

namespace ElementStore

/-- JavaScript `Array.prototype.slice(0, e)`: a negative end counts from
the end of the array; the result is clamped to the array bounds. -/
def jsSliceTo {α : Type} (l : List α) (e : Int) : List α :=
  l.take (if e < 0 then ((l.length : Int) + e).toNat else e.toNat)

/-- JavaScript `Array.prototype.slice(s)`: a negative start counts from
the end of the array; the result is clamped to the array bounds. -/
def jsSliceFrom {α : Type} (l : List α) (s : Int) : List α :=
  l.drop (if s < 0 then ((l.length : Int) + s).toNat else s.toNat)

/-- The `MAX_HISTORY` constant of `addHistory`. -/
def MAX_HISTORY : Nat := 100

/-- `addHistory`: drops the entries after the current `historyIndex`,
appends the new entry (timestamped with `Date.now()`, passed as `now`),
points `historyIndex` at it, and finally truncates to the most recent
`MAX_HISTORY` entries. -/
def addHistory (type data : String) (now : Int) (s : ElementStoreState) : ElementStoreState :=
  let h1 := jsSliceTo s.history (s.historyIndex + 1)
  let h2 := h1 ++ [⟨type, data, now⟩]
  let idx : Int := (h2.length : Int) - 1
  if h2.length > MAX_HISTORY then
    let h3 := jsSliceFrom h2 (-(MAX_HISTORY : Int))
    { s with history := h3, historyIndex := (h3.length : Int) - 1 }
  else
    { s with history := h2, historyIndex := idx }

/-- The `buildTree` closure of `getElementTree`: like
`SchemaTransformer.flatToTree` it follows `childrenIds` through the flat
map, skipping missing ids; the recursion depth is bounded by `fuel`. -/
def buildTree : Nat → StrMap ElementData → String → Option ElementNode
  | 0, _, _ => none
  | fuel + 1, elements, elementId =>
    match elements elementId with
    | none => none
    | some element =>
      let children :=
        match element.childrenIds with
        | none => []
        | some ids => ids.filterMap (fun childId => buildTree fuel elements childId)
      some (.mk element children)

/-- The JavaScript expression `rootId || get().rootElementId`: an absent
argument or the empty string (both falsy) fall back to the stored root. -/
def jsOrId (rootId : Option String) (fallback : Option String) : Option String :=
  match rootId with
  | some r => if r = "" then fallback else some r
  | none => fallback

/-- `getElementTree`: resolves the root id (falling back to
`rootElementId`), returns `null` when the resolved id is still falsy
(`null` or the empty string), and otherwise builds the tree from the
flat `elements` map. -/
def getElementTree (fuel : Nat) (s : ElementStoreState) (rootId : Option String) :
    Option ElementNode :=
  match jsOrId rootId s.rootElementId with
  | none => none
  | some r => if r = "" then none else buildTree fuel s.elements r

/-- `validateElement`: an id missing from the `elements` map yields the
fixed `ELEMENT_NOT_FOUND` result; otherwise the schema validator is
consulted, abstracted as the `validator` parameter — the claims about
this method concern only the not-found branch, so they hold for every
validator, in particular `core/schema/validator.ts`. -/
def validateElement (validator : ElementData → ValidationResult)
    (s : ElementStoreState) (id : String) : ValidationResult :=
  match s.elements id with
  | none =>
    { valid := false
      errors := [⟨"id", "Element not found", "ELEMENT_NOT_FOUND"⟩]
      warnings := [] }
  | some element => validator element

/-- `validateProject`: a missing current project yields the fixed
`PROJECT_NOT_LOADED` result; otherwise the schema validator is
consulted, abstracted as the `validator` parameter — the claims about
this method concern only the no-project branch, so they hold for every
validator, in particular `core/schema/validator.ts`. -/
def validateProject (validator : ProjectConfig → ValidationResult)
    (s : ElementStoreState) : ValidationResult :=
  match s.currentProject with
  | none =>
    { valid := false
      errors := [⟨"project", "No project loaded", "PROJECT_NOT_LOADED"⟩]
      warnings := [] }
  | some project => validator project

/-- `importProject`: converts the raw input with
`schemaTransformer.simpleToProject` and checks it with
`schemaValidator.validateProject`.  Both callees are abstracted as
parameters returning `Except`, an `error` standing for a thrown
exception caught by the surrounding `try`/`catch`; the atomicity claim
quantifies over them, so it holds in particular for the concrete
converter and validator of the sources.  Only when validation succeeds
with `valid = true` is the store state replaced and an `importProject`
history entry added. -/
def importProject {α : Type} (simpleToProject : α → Except String ProjectConfig)
    (validate : ProjectConfig → Except String ValidationResult)
    (now : Int) (input : α) (s : ElementStoreState) : ElementStoreState :=
  match simpleToProject input with
  | .error _ => s
  | .ok project =>
    match validate project with
    | .error _ => s
    | .ok result =>
      if !result.valid then s
      else
        addHistory "importProject" "project" now
          { s with
            currentProject := some project
            elements := project.elements
            rootElementId := some "canvas"
            selectedElementId := none
            draggingElementId := none
            hoveredElementId := none
            history := []
            historyIndex := -1 }

end ElementStore

/-- The `buildTree` closure of `getElementTree` computes exactly the same
tree as `SchemaTransformer.flatToTree`, on every flat map, every id and
every fuel. -/
theorem buildTree_eq_flatToTree :
    ∀ (fuel : Nat) (m : StrMap ElementData) (r : String),
      ElementStore.buildTree fuel m r = SchemaTransformer.flatToTree fuel m r := by
  intro fuel
  induction fuel with
  | zero => intro m r; rfl
  | succ fuel ih =>
    intro m r
    rw [ElementStore.buildTree, SchemaTransformer.flatToTree]
    cases hm : m r with
    | none => rfl
    | some data =>
      cases hc : data.childrenIds with
      | none => simp [hc]
      | some ids =>
        simp only [hc, Option.getD_some]
        have : ids.filterMap (fun childId => ElementStore.buildTree fuel m childId) =
            ids.filterMap (fun childId => SchemaTransformer.flatToTree fuel m childId) := by
          apply List.filterMap_congr
          intro a _
          exact ih m a
        rw [this]

/-- The element used by the C2 counterexample: its id is the empty
string, which JavaScript treats as falsy. -/
def c2Element : ElementData := sampleElement "" []

/-- A store whose `elements` map binds only the empty-string id and
whose `rootElementId` is `null`. -/
def c2State : ElementStoreState :=
  { currentProject := none
    elements := fun i => if i = "" then some c2Element else none
    rootElementId := none
    selectedElementId := none
    draggingElementId := none
    hoveredElementId := none
    history := []
    historyIndex := -1 }

/-- Counterexample to claim C2 as stated: with root id `""` (falsy in
JavaScript), `getElementTree` falls back to the store's `rootElementId`
(here `null`) and returns `null`, while `flatToTree` on the same map and
root id returns the node bound to `""` — so the two derived trees
differ. -/
theorem c2_derived_tree_counterexample :
    ElementStore.getElementTree 1 c2State (some "") = none ∧
    SchemaTransformer.flatToTree 1 c2State.elements "" =
      some (ElementNode.mk c2Element []) ∧
    ElementStore.getElementTree 1 c2State (some "") ≠
      SchemaTransformer.flatToTree 1 c2State.elements "" := by
  have h1 : ElementStore.getElementTree 1 c2State (some "") = none := rfl
  have h2 : SchemaTransformer.flatToTree 1 c2State.elements "" =
      some (ElementNode.mk c2Element []) := rfl
  refine ⟨h1, h2, ?_⟩
  rw [h1, h2]
  exact fun hcontra => Option.noConfusion hcontra

/-- Claim C2 (amended): for every flat map and every non-empty root id,
`getElementTree` on a store whose `elements` field holds that map
returns exactly the tree `SchemaTransformer.flatToTree` derives from the
same map and root id (ids absent from the map are skipped by both);
with an empty or absent root id `getElementTree` instead falls back to
the store's `rootElementId`. -/
theorem c2_derived_tree_equivalence (fuel : Nat) (s : ElementStoreState) (rootId : String)
    (h : rootId ≠ "") :
    ElementStore.getElementTree fuel s (some rootId) =
      SchemaTransformer.flatToTree fuel s.elements rootId := by
  rw [ElementStore.getElementTree, ElementStore.jsOrId]
  simp only [if_neg h]
  exact buildTree_eq_flatToTree fuel s.elements rootId

/-- Witness for claim C2 (amended) at a concrete store and root id. -/
theorem c2_derived_tree_equivalence_witness :
    "root" ≠ "" ∧
    ElementStore.getElementTree 2 c2State (some "root") =
      SchemaTransformer.flatToTree 2 c2State.elements "root" :=
  ⟨by decide, c2_derived_tree_equivalence 2 c2State "root" (by decide)⟩

/-- Claim C6: a `validateElement` call with an id that is not in the
`elements` map returns `valid = false` with exactly the single
`ELEMENT_NOT_FOUND` error and no warnings, and a `validateProject` call
with no current project returns `valid = false` with exactly the single
`PROJECT_NOT_LOADED` error and no warnings — for every underlying schema
validator and store state. -/
theorem c6_structured_validation_failures
    (validatorE : ElementData → ValidationResult)
    (validatorP : ProjectConfig → ValidationResult)
    (s1 s2 : ElementStoreState) (id : String)
    (h1 : s1.elements id = none) (h2 : s2.currentProject = none) :
    ElementStore.validateElement validatorE s1 id =
      { valid := false
        errors := [⟨"id", "Element not found", "ELEMENT_NOT_FOUND"⟩]
        warnings := [] } ∧
    ElementStore.validateProject validatorP s2 =
      { valid := false
        errors := [⟨"project", "No project loaded", "PROJECT_NOT_LOADED"⟩]
        warnings := [] } := by
  constructor
  · rw [ElementStore.validateElement, h1]
  · rw [ElementStore.validateProject, h2]

/-- Witness for claim C6 at a concrete store state and id. -/
theorem c6_structured_validation_failures_witness :
    c2State.elements "missing" = none ∧ c2State.currentProject = none ∧
    ElementStore.validateElement (fun _ => ⟨true, [], []⟩) c2State "missing" =
      { valid := false
        errors := [⟨"id", "Element not found", "ELEMENT_NOT_FOUND"⟩]
        warnings := [] } :=
  ⟨by decide, rfl,
    (c6_structured_validation_failures (fun _ => ⟨true, [], []⟩) (fun _ => ⟨true, [], []⟩)
      c2State c2State "missing" (by decide) rfl).1⟩

/-- Claim C7: whenever the conversion of the imported data throws, the
validation throws, or the validation reports `valid = false`,
`importProject` leaves the whole element store state — in particular
`currentProject`, `elements`, `rootElementId`, the selection fields,
`history` and `historyIndex` — unchanged. -/
theorem c7_import_project_atomicity {α : Type}
    (conv : α → Except String ProjectConfig)
    (val : ProjectConfig → Except String ValidationResult)
    (now : Int) (input : α) (s : ElementStoreState) :
    (∀ e, conv input = .error e →
      ElementStore.importProject conv val now input s = s) ∧
    (∀ p e, conv input = .ok p → val p = .error e →
      ElementStore.importProject conv val now input s = s) ∧
    (∀ p r, conv input = .ok p → val p = .ok r → r.valid = false →
      ElementStore.importProject conv val now input s = s) := by
  refine ⟨?_, ?_, ?_⟩
  · intro e he
    simp only [ElementStore.importProject, he]
  · intro p e hp he
    simp only [ElementStore.importProject, hp, he]
  · intro p r hp hr hv
    simp only [ElementStore.importProject, hp, hr, hv]
    simp

/-- A concrete project configuration for the C7 witness. -/
def c7Project : ProjectConfig :=
  { id := "p"
    name := "p"
    description := none
    createdAt := 0
    updatedAt := 0
    canvas :=
      { id := "canvas"
        name := "canvas"
        width := 800
        height := 600
        backgroundColor := "#ffffff"
        grid := ⟨true, 20, "#e8e8e8"⟩
        zoom := ⟨1, 1 / 10, 5, 1 / 10⟩
        elements := [] }
    elements := mapEmpty
    version := "1.0.0" }

/-- Witness for claim C7: a conversion that throws, and a validator that
reports an invalid project, each leave a concrete state unchanged. -/
theorem c7_import_project_atomicity_witness :
    ElementStore.importProject (fun _ : Unit => (.error "Invalid JSON file"))
      (fun _ => .ok ⟨true, [], []⟩) 0 () c2State = c2State ∧
    ElementStore.importProject (fun _ : Unit => (.ok c7Project))
      (fun _ => .ok ⟨false, [⟨"p", "bad", "BAD"⟩], []⟩) 0 () c2State = c2State :=
  ⟨(c7_import_project_atomicity (fun _ : Unit => (.error "Invalid JSON file"))
      (fun _ => .ok ⟨true, [], []⟩) 0 () c2State).1 "Invalid JSON file" rfl,
    (c7_import_project_atomicity (fun _ : Unit => (.ok c7Project))
      (fun _ => .ok ⟨false, [⟨"p", "bad", "BAD"⟩], []⟩) 0 () c2State).2.2
      c7Project ⟨false, [⟨"p", "bad", "BAD"⟩], []⟩ rfl rfl rfl⟩

/-- Claim C10: after any `addHistory` call on a store state whose
`historyIndex` is at least `-1` (an invariant of every state the store
produces), the history holds at most 100 entries, `historyIndex` points
at the last entry, the new entry is the last one, and the retained old
entries are (a suffix of) the first `historyIndex + 1` previous entries —
everything after the previous cursor has been discarded. -/
theorem c10_history_bound_and_cursor (s : ElementStoreState) (type data : String) (now : Int)
    (h : -1 ≤ s.historyIndex) :
    (ElementStore.addHistory type data now s).history.length ≤ 100 ∧
    (ElementStore.addHistory type data now s).historyIndex =
      ((ElementStore.addHistory type data now s).history.length : Int) - 1 ∧
    (ElementStore.addHistory type data now s).history.getLast? =
      some ⟨type, data, now⟩ ∧
    (ElementStore.addHistory type data now s).history.IsSuffix
      (s.history.take ((s.historyIndex + 1).toNat) ++ [⟨type, data, now⟩]) := by
  have hnn : ¬ (s.historyIndex + 1 < 0) := by omega
  have hto : ElementStore.jsSliceTo s.history (s.historyIndex + 1) =
      s.history.take ((s.historyIndex + 1).toNat) := by
    rw [ElementStore.jsSliceTo, if_neg hnn]
  rw [ElementStore.addHistory]
  simp only [hto, ElementStore.MAX_HISTORY, Nat.cast_ofNat]
  set T := s.history.take ((s.historyIndex + 1).toNat) with hT
  set e : HistoryEntry := ⟨type, data, now⟩ with he
  by_cases hlen : (T ++ [e]).length > 100
  · rw [if_pos hlen]
    dsimp only
    have hneg : (-(100 : Int)) < 0 := by omega
    have hfrom : ElementStore.jsSliceFrom (T ++ [e]) (-(100 : Int)) =
        (T ++ [e]).drop ((T ++ [e]).length - 100) := by
      rw [ElementStore.jsSliceFrom, if_pos hneg]
      congr 1
      omega
    rw [hfrom]
    have hk : (T ++ [e]).length - 100 ≤ T.length := by
      simp only [List.length_append, List.length_singleton]; omega
    have hdrop : (T ++ [e]).drop ((T ++ [e]).length - 100) =
        T.drop ((T ++ [e]).length - 100) ++ [e] :=
      List.drop_append_of_le_length hk
    refine ⟨?_, rfl, ?_, ?_⟩
    · simp only [List.length_drop]
      omega
    · rw [hdrop]
      exact List.getLast?_concat _
    · exact List.drop_suffix _ _
  · rw [if_neg hlen]
    dsimp only
    refine ⟨by omega, rfl, List.getLast?_concat _, List.suffix_refl _⟩

/-- Witness for claim C10 at a concrete store state. -/
theorem c10_history_bound_and_cursor_witness :
    -1 ≤ c2State.historyIndex ∧
    ((ElementStore.addHistory "addElement" "e" 5 c2State).history.length ≤ 100 ∧
      (ElementStore.addHistory "addElement" "e" 5 c2State).historyIndex =
        ((ElementStore.addHistory "addElement" "e" 5 c2State).history.length : Int) - 1 ∧
      (ElementStore.addHistory "addElement" "e" 5 c2State).history.getLast? =
        some ⟨"addElement", "e", 5⟩ ∧
      (ElementStore.addHistory "addElement" "e" 5 c2State).history.IsSuffix
        (c2State.history.take ((c2State.historyIndex + 1).toNat) ++
          [⟨"addElement", "e", 5⟩])) :=
  ⟨by decide, c10_history_bound_and_cursor c2State "addElement" "e" 5 (by decide)⟩

/-! The canvas store (`store/slices/canvas.store.ts`). -/

/-- The selection marquee rectangle. -/
structure Marquee where
  x : ℚ
  y : ℚ
  width : ℚ
  height : ℚ

/-- The selection tool state. -/
structure SelectionTool where
  active : Bool
  marquee : Option Marquee

/-- The drawing tool state. -/
structure DrawingTool where
  active : Bool
  type : String
  color : String
  strokeWidth : ℚ

/-- The tool states of the canvas store. -/
structure CanvasTools where
  selection : SelectionTool
  drawing : DrawingTool

/-- The ruler configuration of the canvas store. -/
structure RulersConfig where
  enabled : Bool
  color : String
  fontSize : ℚ

/-- The guide configuration of the canvas store. -/
structure GuidesConfig where
  enabled : Bool
  color : String
  snapToGuides : Bool

/-- The grid configuration of the canvas store. -/
structure CanvasGridConfig where
  enabled : Bool
  size : ℚ
  color : String
  snapToGrid : Bool

/-- The state fields of the canvas store; the JavaScript numbers are
embedded as rationals. -/
structure CanvasStoreState where
  width : ℚ
  height : ℚ
  viewportX : ℚ
  viewportY : ℚ
  zoom : ℚ
  minZoom : ℚ
  maxZoom : ℚ
  zoomStep : ℚ
  grid : CanvasGridConfig
  rulers : RulersConfig
  guides : GuidesConfig
  editMode : String
  tools : CanvasTools

namespace CanvasStore

/-- `zoomIn`: `zoom := Math.min(zoom + zoomStep, maxZoom)`. -/
def zoomIn (s : CanvasStoreState) : CanvasStoreState :=
  { s with zoom := min (s.zoom + s.zoomStep) s.maxZoom }

/-- `zoomOut`: `zoom := Math.max(zoom - zoomStep, minZoom)`. -/
def zoomOut (s : CanvasStoreState) : CanvasStoreState :=
  { s with zoom := max (s.zoom - s.zoomStep) s.minZoom }

/-- `setZoom`: `zoom := Math.max(minZoom, Math.min(zoom, maxZoom))`. -/
def setZoom (z : ℚ) (s : CanvasStoreState) : CanvasStoreState :=
  { s with zoom := max s.minZoom (min z s.maxZoom) }

/-- `resetZoom`: `zoom := 1`. -/
def resetZoom (s : CanvasStoreState) : CanvasStoreState :=
  { s with zoom := 1 }

end CanvasStore

/-- Claim C9: in every canvas state with `minZoom ≤ zoom ≤ maxZoom`,
`minZoom ≤ 1 ≤ maxZoom` and `zoomStep ≥ 0`, each of `zoomIn`, `zoomOut`,
`setZoom` (with any argument) and `resetZoom` yields a state whose zoom
still satisfies `minZoom ≤ zoom ≤ maxZoom`. -/
theorem c9_zoom_clamp_invariant (s : CanvasStoreState)
    (hlo : s.minZoom ≤ s.zoom) (hhi : s.zoom ≤ s.maxZoom)
    (hone1 : s.minZoom ≤ 1) (hone2 : 1 ≤ s.maxZoom) (hstep : 0 ≤ s.zoomStep) :
    ((CanvasStore.zoomIn s).minZoom ≤ (CanvasStore.zoomIn s).zoom ∧
      (CanvasStore.zoomIn s).zoom ≤ (CanvasStore.zoomIn s).maxZoom) ∧
    ((CanvasStore.zoomOut s).minZoom ≤ (CanvasStore.zoomOut s).zoom ∧
      (CanvasStore.zoomOut s).zoom ≤ (CanvasStore.zoomOut s).maxZoom) ∧
    (∀ z : ℚ, (CanvasStore.setZoom z s).minZoom ≤ (CanvasStore.setZoom z s).zoom ∧
      (CanvasStore.setZoom z s).zoom ≤ (CanvasStore.setZoom z s).maxZoom) ∧
    ((CanvasStore.resetZoom s).minZoom ≤ (CanvasStore.resetZoom s).zoom ∧
      (CanvasStore.resetZoom s).zoom ≤ (CanvasStore.resetZoom s).maxZoom) := by
  have hminmax : s.minZoom ≤ s.maxZoom := le_trans hone1 hone2
  simp only [CanvasStore.zoomIn, CanvasStore.zoomOut, CanvasStore.setZoom,
    CanvasStore.resetZoom]
  refine ⟨⟨?_, ?_⟩, ⟨?_, ?_⟩, ?_, ⟨?_, ?_⟩⟩
  · exact le_min (le_trans hlo (by linarith)) hminmax
  · exact min_le_right _ _
  · exact le_max_right _ _
  · exact max_le (by linarith) hminmax
  · intro z
    exact ⟨le_max_left _ _, max_le hminmax (min_le_right _ _)⟩
  · exact hone1
  · exact hone2

/-- A concrete canvas state matching the store's initial values. -/
def c9SampleState : CanvasStoreState :=
  { width := 800
    height := 600
    viewportX := 0
    viewportY := 0
    zoom := 1
    minZoom := 1 / 10
    maxZoom := 5
    zoomStep := 1 / 10
    grid := ⟨true, 20, "#e8e8e8", true⟩
    rulers := ⟨true, "#999999", 12⟩
    guides := ⟨true, "#1677ff", true⟩
    editMode := "select"
    tools := ⟨⟨false, none⟩, ⟨false, "rectangle", "#1677ff", 2⟩⟩ }

/-- Witness for claim C9 at the store's initial zoom configuration. -/
theorem c9_zoom_clamp_invariant_witness :
    (c9SampleState.minZoom ≤ c9SampleState.zoom ∧ c9SampleState.zoom ≤ c9SampleState.maxZoom ∧
      c9SampleState.minZoom ≤ 1 ∧ 1 ≤ c9SampleState.maxZoom ∧ 0 ≤ c9SampleState.zoomStep) ∧
    ((CanvasStore.zoomIn c9SampleState).minZoom ≤ (CanvasStore.zoomIn c9SampleState).zoom ∧
      (CanvasStore.zoomIn c9SampleState).zoom ≤ (CanvasStore.zoomIn c9SampleState).maxZoom) :=
  ⟨⟨by norm_num [c9SampleState], by norm_num [c9SampleState], by norm_num [c9SampleState],
      by norm_num [c9SampleState], by norm_num [c9SampleState]⟩,
    (c9_zoom_clamp_invariant c9SampleState (by norm_num [c9SampleState])
      (by norm_num [c9SampleState]) (by norm_num [c9SampleState])
      (by norm_num [c9SampleState]) (by norm_num [c9SampleState])).1⟩

/-! The Worklet registry and loader (`utils/worklet/loader.ts`). -/

/-- The four registered worklet types. -/
inductive WorkletType where
  | textRenderer
  | canvasEngine
  | layoutEngine
  | gradientEngine
deriving DecidableEq

/-- The worklet status values. -/
inductive WorkletStatus where
  | pending
  | loading
  | loaded
  | error
  | unsupported
deriving DecidableEq

/-- A worklet configuration; the optional fields mirror the TypeScript
optional properties. -/
structure WorkletConfig where
  type : WorkletType
  url : String
  dependencies : Option (List WorkletType)
  isRequired : Option Bool
  retryCount : Option Nat

/-- The errors `loadWorklet` can raise; a failed `addModule` call is
identified by its global call index, so distinct failures are distinct
errors. -/
inductive WorkletErr where
  | unsupported
  | configNotFound (t : WorkletType)
  | addModuleFailed (callIndex : Nat)
  | outOfFuel
deriving DecidableEq

/-- The events the registry emits. -/
inductive WorkletEvent where
  | loadstart (worklet : WorkletType)
  | load (worklet : WorkletType)
  | error (worklet : WorkletType) (err : WorkletErr)
  | progress (loaded : Nat) (total : Nat)
deriving DecidableEq

/-- The observable state of the worklet registry, together with an audit
trail of the effects the loader performs: emitted events, the
`CSS.paintWorklet.addModule` calls (worklet type and global call index)
and the `setTimeout` delays in milliseconds. -/
structure RegistryState where
  status : WorkletType → WorkletStatus
  loadedWorklets : List WorkletType
  events : List WorkletEvent
  callCount : Nat
  callLog : List (WorkletType × Nat)
  delays : List Nat

/-- The JavaScript expression `n || d` on numbers: `undefined` and `0`
are falsy and fall back to the default. -/
def jsOrNat (o : Option Nat) (d : Nat) : Nat :=
  match o with
  | none => d
  | some n => if n = 0 then d else n

/-- `emitEvent`: appends an event to the audit trail. -/
def emitEvent (s : RegistryState) (e : WorkletEvent) : RegistryState :=
  { s with events := s.events ++ [e] }

/-- `this.status.set(t, st)`. -/
def setStatus (s : RegistryState) (t : WorkletType) (st : WorkletStatus) : RegistryState :=
  { s with status := fun x => if x = t then st else s.status x }

/-- The retry `for` loop of `loadWorklet` (attempts `attempt` through
`attempt + remaining`).  The oracle `ok` tells whether the `k`-th global
`CSS.paintWorklet.addModule` call succeeds.  On success the status
becomes `loaded` and a `load` event fires; on the final failure the
status becomes `error`, an `error` event fires, and the promise rejects
exactly when `isRequired`; between failed attempts a delay of
`2 ^ attempt * 100` ms is awaited. -/
def tryLoad (ok : Nat → Bool) (cfg : WorkletConfig) (t : WorkletType) :
    Nat → Nat → RegistryState → Except WorkletErr Unit × RegistryState
  | attempt, remaining, s =>
    let k := s.callCount
    let s1 := { s with callCount := k + 1, callLog := s.callLog ++ [(t, k)] }
    if ok k then
      (Except.ok (),
        emitEvent { (setStatus s1 t .loaded) with loadedWorklets := s1.loadedWorklets ++ [t] }
          (.load t))
    else
      match remaining with
      | 0 =>
        let s2 := emitEvent (setStatus s1 t .error) (.error t (.addModuleFailed k))
        if cfg.isRequired.getD false then (Except.error (.addModuleFailed k), s2)
        else (Except.ok (), s2)
      | r + 1 =>
        let s2 := { s1 with delays := s1.delays ++ [2 ^ attempt * 100] }
        tryLoad ok cfg t (attempt + 1) r s2

/-- The dependency `for` loop of `loadWorklet`: each dependency whose
status is not `loaded` is loaded with the (recursive) `loader`, in
order; an exception from a dependency load propagates. -/
def loadDeps (loader : WorkletType → RegistryState → Except WorkletErr Unit × RegistryState) :
    List WorkletType → RegistryState → Except WorkletErr Unit × RegistryState
  | [], s => (Except.ok (), s)
  | d :: rest, s =>
    if s.status d = WorkletStatus.loaded then loadDeps loader rest s
    else
      match loader d s with
      | (Except.error e, s1) => (Except.error e, s1)
      | (Except.ok _, s1) => loadDeps loader rest s1

/-- `WorkletRegistry.loadWorklet`: checks Worklet support, looks up the
config, resolves dependencies, returns early when the worklet is
already `loaded`, and otherwise runs the retry loop after setting the
status to `loading` and emitting `loadstart`.  The unbounded recursion
through dependencies is made explicit with `fuel`. -/
def loadWorklet (sup : Bool) (configs : WorkletType → Option WorkletConfig) (ok : Nat → Bool) :
    Nat → WorkletType → RegistryState → Except WorkletErr Unit × RegistryState
  | 0, _, s => (Except.error .outOfFuel, s)
  | fuel + 1, t, s =>
    if sup = false then
      (Except.error .unsupported, emitEvent (setStatus s t .error) (.error t .unsupported))
    else
      match configs t with
      | none =>
        (Except.error (.configNotFound t),
          emitEvent (setStatus s t .error) (.error t (.configNotFound t)))
      | some cfg =>
        match loadDeps (loadWorklet sup configs ok fuel) (cfg.dependencies.getD []) s with
        | (Except.error e, s1) => (Except.error e, s1)
        | (Except.ok _, s1) =>
          if s1.status t = WorkletStatus.loaded then (Except.ok (), s1)
          else
            tryLoad ok cfg t 1 (jsOrNat cfg.retryCount 1 - 1)
              (emitEvent (setStatus s1 t .loading) (.loadstart t))

/-- `retryCount || 1` is always at least one. -/
theorem jsOrNat_pos (o : Option Nat) : 1 ≤ jsOrNat o 1 := by
  match o with
  | none => simp [jsOrNat]
  | some n =>
    simp only [jsOrNat]
    split
    · omega
    · omega

/-- The retry loop makes at most `remaining + 1` `addModule` calls. -/
theorem tryLoad_callCount_le (ok : Nat → Bool) (cfg : WorkletConfig) (t : WorkletType) :
    ∀ remaining attempt s,
      (tryLoad ok cfg t attempt remaining s).2.callCount ≤ s.callCount + remaining + 1 := by
  intro remaining
  induction remaining with
  | zero =>
    intro attempt s
    rw [tryLoad]
    dsimp only
    split
    · simp [emitEvent, setStatus]
    · split
      · simp [emitEvent, setStatus]
      · simp [emitEvent, setStatus]
  | succ r ih =>
    intro attempt s
    rw [tryLoad]
    dsimp only
    split
    · simp [emitEvent, setStatus]
    · refine le_trans (ih (attempt + 1) _) ?_
      simp
      omega

/-- When every attempt of the retry loop fails, it makes exactly
`remaining + 1` calls, sets the status to `error`, emits the error event
for the last failure, and rejects with that last error exactly when the
worklet is required. -/
theorem tryLoad_all_fail (ok : Nat → Bool) (cfg : WorkletConfig) (t : WorkletType) :
    ∀ remaining attempt s,
      (∀ j, j ≤ remaining → ok (s.callCount + j) = false) →
      (tryLoad ok cfg t attempt remaining s).2.callCount = s.callCount + remaining + 1 ∧
      (tryLoad ok cfg t attempt remaining s).2.status t = .error ∧
      WorkletEvent.error t (.addModuleFailed (s.callCount + remaining)) ∈
        (tryLoad ok cfg t attempt remaining s).2.events ∧
      (tryLoad ok cfg t attempt remaining s).1 =
        (if cfg.isRequired.getD false then
          Except.error (.addModuleFailed (s.callCount + remaining))
        else Except.ok ()) := by
  intro remaining
  induction remaining with
  | zero =>
    intro attempt s hfail
    have h0 : ok s.callCount = false := by
      have := hfail 0 (le_refl 0)
      simpa using this
    rw [tryLoad]
    simp only [h0, Bool.false_eq_true, if_false, Nat.add_zero]
    cases hreq : cfg.isRequired.getD false <;>
      simp [hreq, emitEvent, setStatus]
  | succ r ih =>
    intro attempt s hfail
    have h0 : ok s.callCount = false := by
      have := hfail 0 (by omega)
      simpa using this
    rw [tryLoad]
    simp only [h0, Bool.false_eq_true, if_false]
    have hrec := ih (attempt + 1)
      { s with
        callCount := s.callCount + 1
        callLog := s.callLog ++ [(t, s.callCount)]
        delays := s.delays ++ [2 ^ attempt * 100] }
      (by
        intro j hj
        have hs := hfail (j + 1) (by omega)
        have harith : s.callCount + (j + 1) = s.callCount + 1 + j := by omega
        rw [harith] at hs
        simpa using hs)
    simp only at hrec
    have harith : s.callCount + 1 + r = s.callCount + (r + 1) := by omega
    rw [harith] at hrec
    exact hrec

/-- The retry loop stops at the first successful attempt: it makes
exactly `j + 1` calls, sets the status to `loaded` and resolves. -/
theorem tryLoad_first_success (ok : Nat → Bool) (cfg : WorkletConfig) (t : WorkletType) :
    ∀ remaining attempt s j,
      j ≤ remaining → ok (s.callCount + j) = true →
      (∀ i, i < j → ok (s.callCount + i) = false) →
      (tryLoad ok cfg t attempt remaining s).2.callCount = s.callCount + j + 1 ∧
      (tryLoad ok cfg t attempt remaining s).2.status t = .loaded ∧
      (tryLoad ok cfg t attempt remaining s).1 = .ok () := by
  intro remaining
  induction remaining with
  | zero =>
    intro attempt s j hj hok _
    have hj0 : j = 0 := by omega
    subst hj0
    have h0 : ok s.callCount = true := by simpa using hok
    rw [tryLoad]
    simp [h0, emitEvent, setStatus]
  | succ r ih =>
    intro attempt s j hj hok hprev
    by_cases hj0 : j = 0
    · subst hj0
      have h0 : ok s.callCount = true := by simpa using hok
      rw [tryLoad]
      simp [h0, emitEvent, setStatus]
    · have h0 : ok s.callCount = false := by
        have := hprev 0 (by omega)
        simpa using this
      rw [tryLoad]
      simp only [h0, Bool.false_eq_true, if_false]
      have hrec := ih (attempt + 1)
        { s with
          callCount := s.callCount + 1
          callLog := s.callLog ++ [(t, s.callCount)]
          delays := s.delays ++ [2 ^ attempt * 100] }
        (j - 1) (by omega)
        (by
          have harith : s.callCount + 1 + (j - 1) = s.callCount + j := by omega
          simpa [harith] using hok)
        (by
          intro i hi
          have hs := hprev (i + 1) (by omega)
          have harith : s.callCount + (i + 1) = s.callCount + 1 + i := by omega
          rw [harith] at hs
          simpa using hs)
      simp only at hrec
      have harith : s.callCount + 1 + (j - 1) + 1 = s.callCount + j + 1 := by omega
      rw [harith] at hrec
      exact hrec

/-- When every attempt fails, the delays awaited by the retry loop are
`2 ^ attempt * 100, 2 ^ (attempt + 1) * 100, …` — one for each
non-final failed attempt. -/
theorem tryLoad_delays_all_fail (ok : Nat → Bool) (cfg : WorkletConfig) (t : WorkletType) :
    ∀ remaining attempt s,
      (∀ j, j ≤ remaining → ok (s.callCount + j) = false) →
      (tryLoad ok cfg t attempt remaining s).2.delays =
        s.delays ++ (List.range remaining).map (fun j => 2 ^ (attempt + j) * 100) := by
  intro remaining
  induction remaining with
  | zero =>
    intro attempt s hfail
    have h0 : ok s.callCount = false := by simpa using hfail 0 (le_refl 0)
    rw [tryLoad]
    simp only [h0, Bool.false_eq_true, if_false]
    cases hreq : cfg.isRequired.getD false <;> simp [hreq, emitEvent, setStatus]
  | succ r ih =>
    intro attempt s hfail
    have h0 : ok s.callCount = false := by simpa using hfail 0 (by omega)
    rw [tryLoad]
    simp only [h0, Bool.false_eq_true, if_false]
    have hrec := ih (attempt + 1)
      { s with
        callCount := s.callCount + 1
        callLog := s.callLog ++ [(t, s.callCount)]
        delays := s.delays ++ [2 ^ attempt * 100] }
      (by
        intro j hj
        have hs := hfail (j + 1) (by omega)
        have harith : s.callCount + (j + 1) = s.callCount + 1 + j := by omega
        rw [harith] at hs
        simpa using hs)
    simp only at hrec
    rw [hrec, List.range_succ_eq_map, List.map_cons, List.map_map]
    have hmap : ((List.range r).map ((fun j => 2 ^ (attempt + j) * 100) ∘ Nat.succ)) =
        (List.range r).map (fun j => 2 ^ (attempt + 1 + j) * 100) := by
      apply List.map_congr_left
      intro a _
      have harith : attempt + Nat.succ a = attempt + 1 + a := by omega
      simp [Function.comp, harith]
    rw [← hmap]
    simp

/-- Every `addModule` call made by the retry loop is appended to the
call log and is for the worklet being loaded. -/
theorem tryLoad_callLog (ok : Nat → Bool) (cfg : WorkletConfig) (t : WorkletType) :
    ∀ remaining attempt s, ∃ calls,
      (tryLoad ok cfg t attempt remaining s).2.callLog = s.callLog ++ calls ∧
      ∀ c ∈ calls, c.1 = t := by
  intro remaining
  induction remaining with
  | zero =>
    intro attempt s
    rw [tryLoad]
    dsimp only
    split
    · exact ⟨[(t, s.callCount)], by simp [emitEvent, setStatus], by simp⟩
    · refine ⟨[(t, s.callCount)], ?_, by simp⟩
      cases hreq : cfg.isRequired.getD false <;> simp [hreq, emitEvent, setStatus]
  | succ r ih =>
    intro attempt s
    rw [tryLoad]
    dsimp only
    split
    · exact ⟨[(t, s.callCount)], by simp [emitEvent, setStatus], by simp⟩
    · obtain ⟨calls, hlog, hall⟩ := ih (attempt + 1)
        { s with
          callCount := s.callCount + 1
          callLog := s.callLog ++ [(t, s.callCount)]
          delays := s.delays ++ [2 ^ attempt * 100] }
      refine ⟨(t, s.callCount) :: calls, ?_, ?_⟩
      · simp only at hlog
        rw [hlog]
        simp
      · intro c hc
        rcases List.mem_cons.mp hc with h | h
        · rw [h]
        · exact hall c h

/-- The dependency loop skips over a list of dependencies that are all
already `loaded`, leaving the state untouched. -/
theorem loadDeps_all_loaded
    (loader : WorkletType → RegistryState → Except WorkletErr Unit × RegistryState) :
    ∀ (deps : List WorkletType) (s : RegistryState),
      (∀ d ∈ deps, s.status d = .loaded) → loadDeps loader deps s = (.ok (), s) := by
  intro deps
  induction deps with
  | nil => intro s _; rw [loadDeps]
  | cons d rest ih =>
    intro s h
    rw [loadDeps, if_pos (h d (List.mem_cons_self _ _))]
    exact ih s (fun x hx => h x (List.mem_cons_of_mem _ hx))

/-- A dependency whose status is `loaded` is skipped. -/
theorem loadDeps_skip
    (loader : WorkletType → RegistryState → Except WorkletErr Unit × RegistryState)
    (d : WorkletType) (rest : List WorkletType) (s : RegistryState)
    (h : s.status d = .loaded) :
    loadDeps loader (d :: rest) s = loadDeps loader rest s := by
  rw [loadDeps, if_pos h]

/-- A dependency that is not `loaded` is loaded first; the remaining
dependencies continue from the state it produced. -/
theorem loadDeps_step_ok
    (loader : WorkletType → RegistryState → Except WorkletErr Unit × RegistryState)
    (d : WorkletType) (rest : List WorkletType) (s s1 : RegistryState)
    (h : s.status d ≠ .loaded) (hl : loader d s = (.ok (), s1)) :
    loadDeps loader (d :: rest) s = loadDeps loader rest s1 := by
  rw [loadDeps]
  simp only [if_neg h, hl]

/-- A failing dependency load aborts the dependency loop with that
error. -/
theorem loadDeps_step_error
    (loader : WorkletType → RegistryState → Except WorkletErr Unit × RegistryState)
    (d : WorkletType) (rest : List WorkletType) (s s1 : RegistryState) (e : WorkletErr)
    (h : s.status d ≠ .loaded) (hl : loader d s = (.error e, s1)) :
    loadDeps loader (d :: rest) s = (.error e, s1) := by
  rw [loadDeps]
  simp only [if_neg h, hl]

/-- If after dependency resolution the worklet is already `loaded`,
`loadWorklet` resolves with the dependency-phase state and does nothing
else. -/
theorem loadWorklet_deps_loaded_done (configs : WorkletType → Option WorkletConfig)
    (ok : Nat → Bool) (fuel : Nat) (t : WorkletType) (cfg : WorkletConfig)
    (s s1 : RegistryState) (hcfg : configs t = some cfg)
    (hdp : loadDeps (loadWorklet true configs ok fuel) (cfg.dependencies.getD []) s =
      (.ok (), s1))
    (hst : s1.status t = .loaded) :
    loadWorklet true configs ok (fuel + 1) t s = (.ok (), s1) := by
  rw [loadWorklet]
  simp only [hcfg, hdp, hst]
  simp

/-- If after dependency resolution the worklet is not `loaded`,
`loadWorklet` enters the retry loop from the `loadstart`/`loading`
state. -/
theorem loadWorklet_attempt_phase (configs : WorkletType → Option WorkletConfig)
    (ok : Nat → Bool) (fuel : Nat) (t : WorkletType) (cfg : WorkletConfig)
    (s s1 : RegistryState) (hcfg : configs t = some cfg)
    (hdp : loadDeps (loadWorklet true configs ok fuel) (cfg.dependencies.getD []) s =
      (.ok (), s1))
    (hst : s1.status t ≠ .loaded) :
    loadWorklet true configs ok (fuel + 1) t s =
      tryLoad ok cfg t 1 (jsOrNat cfg.retryCount 1 - 1)
        (emitEvent (setStatus s1 t .loading) (.loadstart t)) := by
  rw [loadWorklet]
  simp only [hcfg, hdp, if_neg hst]
  simp [hst]

/-- The registry state right after construction: every registered
worklet is `pending` and no effect has happened yet. -/
def initialRegistryState : RegistryState := ⟨fun _ => .pending, [], [], 0, [], []⟩

/-- The default `text-renderer` configuration registered by
`initDefaultConfigs`. -/
def textRendererConfig : WorkletConfig :=
  ⟨.textRenderer, "/worklets/text-renderer.js", none, some true, some 3⟩

/-- The default configuration table registered by `initDefaultConfigs`. -/
def defaultConfigs : WorkletType → Option WorkletConfig := fun t =>
  match t with
  | .textRenderer => some textRendererConfig
  | .canvasEngine => some ⟨.canvasEngine, "/worklets/canvas-engine.js", none, some true, some 3⟩
  | .layoutEngine => some ⟨.layoutEngine, "/worklets/layout-engine.js", none, some false, some 2⟩
  | .gradientEngine =>
    some ⟨.gradientEngine, "/worklets/gradient-engine.js", none, some false, some 2⟩

/-- Counterexample to claim C3 as stated: a registered config with
`retryCount: 0` — `config.retryCount || 1` evaluates to `1` because `0`
is falsy in JavaScript — still gets one `addModule` call, exceeding the
claimed bound of "at most `config.retryCount` attempts". -/
theorem c3_worklet_retry_counterexample :
    let zeroRetryConfig : WorkletConfig :=
      ⟨.textRenderer, "/worklets/text-renderer.js", none, some true, some 0⟩
    zeroRetryConfig.retryCount = some 0 ∧
    (loadWorklet true (fun _ => some zeroRetryConfig) (fun _ => false) 1 .textRenderer
      initialRegistryState).2.callCount = 1 ∧
    ¬ ((loadWorklet true (fun _ => some zeroRetryConfig) (fun _ => false) 1 .textRenderer
      initialRegistryState).2.callCount ≤ 0) :=
  ⟨rfl, by decide, by decide⟩

/-- Claim C3 (amended): when the Worklet API is supported and the
worklet (here: one without dependencies, not yet loaded) is loaded,
`loadWorklet` calls `addModule` at most `retryCount || 1` times — that
is, `retryCount` when it is a positive number and once when it is
absent or zero —, stops at the first success setting the status to
`loaded` and resolving, and if every attempt fails it sets the status to
`error`, emits an error event for the last failure, and rejects with
that last error if and only if the config is required (resolving
normally otherwise). -/
theorem c3_worklet_retry_and_raise (configs : WorkletType → Option WorkletConfig)
    (ok : Nat → Bool) (fuel : Nat) (t : WorkletType) (cfg : WorkletConfig)
    (s : RegistryState)
    (hcfg : configs t = some cfg) (hdeps : cfg.dependencies.getD [] = [])
    (hstat : s.status t ≠ .loaded) :
    (loadWorklet true configs ok (fuel + 1) t s).2.callCount ≤
      s.callCount + jsOrNat cfg.retryCount 1 ∧
    (∀ j, j < jsOrNat cfg.retryCount 1 → ok (s.callCount + j) = true →
      (∀ i, i < j → ok (s.callCount + i) = false) →
      (loadWorklet true configs ok (fuel + 1) t s).2.callCount = s.callCount + j + 1 ∧
      (loadWorklet true configs ok (fuel + 1) t s).2.status t = .loaded ∧
      (loadWorklet true configs ok (fuel + 1) t s).1 = .ok ()) ∧
    ((∀ j, j < jsOrNat cfg.retryCount 1 → ok (s.callCount + j) = false) →
      (loadWorklet true configs ok (fuel + 1) t s).2.status t = .error ∧
      WorkletEvent.error t (.addModuleFailed (s.callCount + (jsOrNat cfg.retryCount 1 - 1))) ∈
        (loadWorklet true configs ok (fuel + 1) t s).2.events ∧
      (loadWorklet true configs ok (fuel + 1) t s).1 =
        (if cfg.isRequired.getD false then
          Except.error (.addModuleFailed (s.callCount + (jsOrNat cfg.retryCount 1 - 1)))
        else Except.ok ())) := by
  have hdp : loadDeps (loadWorklet true configs ok fuel) (cfg.dependencies.getD []) s =
      (.ok (), s) := by
    rw [hdeps, loadDeps]
  have hres := loadWorklet_attempt_phase configs ok fuel t cfg s s hcfg hdp hstat
  have hm : 1 ≤ jsOrNat cfg.retryCount 1 := jsOrNat_pos _
  rw [hres]
  have hcc : (emitEvent (setStatus s t .loading) (.loadstart t)).callCount = s.callCount := rfl
  refine ⟨?_, ?_, ?_⟩
  · have hle := tryLoad_callCount_le ok cfg t (jsOrNat cfg.retryCount 1 - 1) 1
      (emitEvent (setStatus s t .loading) (.loadstart t))
    rw [hcc] at hle
    omega
  · intro j hj hok hprev
    have hfs := tryLoad_first_success ok cfg t (jsOrNat cfg.retryCount 1 - 1) 1
      (emitEvent (setStatus s t .loading) (.loadstart t)) j (by omega)
      (by rw [hcc]; exact hok) (by rw [hcc]; exact hprev)
    rw [hcc] at hfs
    exact hfs
  · intro hfail
    have haf := tryLoad_all_fail ok cfg t (jsOrNat cfg.retryCount 1 - 1) 1
      (emitEvent (setStatus s t .loading) (.loadstart t))
      (by intro j hj; rw [hcc]; exact hfail j (by omega))
    rw [hcc] at haf
    exact ⟨haf.2.1, haf.2.2.1, haf.2.2.2⟩

/-- Witness for claim C3 (amended) at the default text-renderer config. -/
theorem c3_worklet_retry_and_raise_witness :
    defaultConfigs WorkletType.textRenderer = some textRendererConfig ∧
    textRendererConfig.dependencies.getD [] = [] ∧
    initialRegistryState.status WorkletType.textRenderer ≠ .loaded ∧
    (loadWorklet true defaultConfigs (fun _ => true) 1 .textRenderer
      initialRegistryState).2.callCount ≤
      initialRegistryState.callCount + jsOrNat textRendererConfig.retryCount 1 :=
  ⟨rfl, rfl, by decide,
    (c3_worklet_retry_and_raise defaultConfigs (fun _ => true) 0 .textRenderer
      textRendererConfig initialRegistryState rfl rfl (by decide)).1⟩

/-- Claim C4: the dependency loop of `loadWorklet` skips dependencies
that are already `loaded`; a dependency that is not `loaded` is loaded
recursively before the remaining ones continue from its state; a
failing dependency load aborts; when the worklet's own status is
`loaded` after dependency resolution, `loadWorklet` returns without
attempting to load it again; and otherwise every `addModule` call of
the load is appended after the dependency phase and is for the worklet
itself. -/
theorem c4_worklet_dependency_resolution (configs : WorkletType → Option WorkletConfig)
    (ok : Nat → Bool) (fuel : Nat) (t : WorkletType) (cfg : WorkletConfig)
    (s : RegistryState) (hcfg : configs t = some cfg) :
    (∀ d rest, s.status d = .loaded →
      loadDeps (loadWorklet true configs ok fuel) (d :: rest) s =
        loadDeps (loadWorklet true configs ok fuel) rest s) ∧
    (∀ d rest s1, s.status d ≠ .loaded → loadWorklet true configs ok fuel d s = (.ok (), s1) →
      loadDeps (loadWorklet true configs ok fuel) (d :: rest) s =
        loadDeps (loadWorklet true configs ok fuel) rest s1) ∧
    (∀ d rest s1 e, s.status d ≠ .loaded →
      loadWorklet true configs ok fuel d s = (.error e, s1) →
      loadDeps (loadWorklet true configs ok fuel) (d :: rest) s = (.error e, s1)) ∧
    (∀ s1, loadDeps (loadWorklet true configs ok fuel) (cfg.dependencies.getD []) s =
        (.ok (), s1) → s1.status t = .loaded →
      loadWorklet true configs ok (fuel + 1) t s = (.ok (), s1)) ∧
    (∀ s1, loadDeps (loadWorklet true configs ok fuel) (cfg.dependencies.getD []) s =
        (.ok (), s1) → s1.status t ≠ .loaded →
      ∃ calls, (loadWorklet true configs ok (fuel + 1) t s).2.callLog = s1.callLog ++ calls ∧
        ∀ c ∈ calls, c.1 = t) := by
  refine ⟨?_, ?_, ?_, ?_, ?_⟩
  · intro d rest h
    exact loadDeps_skip _ d rest s h
  · intro d rest s1 h hl
    exact loadDeps_step_ok _ d rest s s1 h hl
  · intro d rest s1 e h hl
    exact loadDeps_step_error _ d rest s s1 e h hl
  · intro s1 hdp hst
    exact loadWorklet_deps_loaded_done configs ok fuel t cfg s s1 hcfg hdp hst
  · intro s1 hdp hst
    rw [loadWorklet_attempt_phase configs ok fuel t cfg s s1 hcfg hdp hst]
    have hlog : (emitEvent (setStatus s1 t .loading) (.loadstart t)).callLog = s1.callLog := rfl
    obtain ⟨calls, hc, hall⟩ := tryLoad_callLog ok cfg t (jsOrNat cfg.retryCount 1 - 1) 1
      (emitEvent (setStatus s1 t .loading) (.loadstart t))
    rw [hlog] at hc
    exact ⟨calls, hc, hall⟩

/-- A registry state in which every worklet is already `loaded`. -/
def loadedRegistryState : RegistryState := ⟨fun _ => .loaded, [], [], 0, [], []⟩

/-- Witness for claim C4: on a state where the worklet is already
loaded, `loadWorklet` resolves without any `addModule` attempt or state
change. -/
theorem c4_worklet_dependency_resolution_witness :
    defaultConfigs WorkletType.textRenderer = some textRendererConfig ∧
    loadWorklet true defaultConfigs (fun _ => false) 1 .textRenderer loadedRegistryState =
      (.ok (), loadedRegistryState) :=
  ⟨rfl,
    (c4_worklet_dependency_resolution defaultConfigs (fun _ => false) 0 .textRenderer
      textRendererConfig loadedRegistryState rfl).2.2.2.1 loadedRegistryState rfl rfl⟩

/-- Counterexample to claim C5 as stated: with the default
`text-renderer` config (`retryCount: 3`) and every attempt failing, the
two delays actually awaited are 200 ms and then 400 ms — not the same
fixed duration for every attempt. -/
theorem c5_worklet_fixed_backoff_counterexample :
    (loadWorklet true defaultConfigs (fun _ => false) 1 .textRenderer
      initialRegistryState).2.delays = [200, 400] ∧ (200 : Nat) ≠ 400 :=
  ⟨by decide, by decide⟩

/-- Claim C5 (amended): the delay `loadWorklet` waits after the `k`-th
failed attempt (for `k` below the retry limit) is `2 ^ k * 100`
milliseconds — an exponential backoff that doubles with each failed
attempt, not a fixed duration. -/
theorem c5_worklet_exponential_backoff (configs : WorkletType → Option WorkletConfig)
    (ok : Nat → Bool) (fuel : Nat) (t : WorkletType) (cfg : WorkletConfig)
    (s : RegistryState)
    (hcfg : configs t = some cfg) (hdeps : cfg.dependencies.getD [] = [])
    (hstat : s.status t ≠ .loaded)
    (hfail : ∀ j, j < jsOrNat cfg.retryCount 1 → ok (s.callCount + j) = false) :
    (loadWorklet true configs ok (fuel + 1) t s).2.delays =
      s.delays ++ (List.range (jsOrNat cfg.retryCount 1 - 1)).map
        (fun j => 2 ^ (1 + j) * 100) := by
  have hdp : loadDeps (loadWorklet true configs ok fuel) (cfg.dependencies.getD []) s =
      (.ok (), s) := by
    rw [hdeps, loadDeps]
  rw [loadWorklet_attempt_phase configs ok fuel t cfg s s hcfg hdp hstat]
  have hcc : (emitEvent (setStatus s t .loading) (.loadstart t)).callCount = s.callCount := rfl
  have hdl : (emitEvent (setStatus s t .loading) (.loadstart t)).delays = s.delays := rfl
  have hm : 1 ≤ jsOrNat cfg.retryCount 1 := jsOrNat_pos _
  have hda := tryLoad_delays_all_fail ok cfg t (jsOrNat cfg.retryCount 1 - 1) 1
    (emitEvent (setStatus s t .loading) (.loadstart t))
    (by intro j hj; rw [hcc]; exact hfail j (by omega))
  rw [hdl] at hda
  exact hda

/-- Witness for claim C5 (amended) at the default text-renderer config
with an always-failing module load. -/
theorem c5_worklet_exponential_backoff_witness :
    defaultConfigs WorkletType.textRenderer = some textRendererConfig ∧
    textRendererConfig.dependencies.getD [] = [] ∧
    initialRegistryState.status WorkletType.textRenderer ≠ .loaded ∧
    (loadWorklet true defaultConfigs (fun _ => false) 1 .textRenderer
      initialRegistryState).2.delays =
      initialRegistryState.delays ++
        (List.range (jsOrNat textRendererConfig.retryCount 1 - 1)).map
          (fun j => 2 ^ (1 + j) * 100) :=
  ⟨rfl, rfl, by decide,
    c5_worklet_exponential_backoff defaultConfigs (fun _ => false) 0 .textRenderer
      textRendererConfig initialRegistryState rfl rfl (by decide) (fun j _ => rfl)⟩

/-! The render engine (`core/render/engine.tsx`). -/

namespace ElementTypes

/-! The `ElementTypes` constant object of `core/schema/types.ts`
(bundled in the scripts sources), one definition per key. -/

/-- `ElementTypes.CONTAINER` of `core/schema/types.ts`. -/
def CONTAINER : String := "container"

/-- `ElementTypes.TEXT` of `core/schema/types.ts`. -/
def TEXT : String := "text"

/-- `ElementTypes.IMAGE` of `core/schema/types.ts`. -/
def IMAGE : String := "image"

/-- `ElementTypes.BUTTON` of `core/schema/types.ts`. -/
def BUTTON : String := "button"

/-- `ElementTypes.INPUT` of `core/schema/types.ts`. -/
def INPUT : String := "input"

/-- `ElementTypes.FLEX` of `core/schema/types.ts`. -/
def FLEX : String := "flex"

/-- `ElementTypes.GRID` of `core/schema/types.ts`. -/
def GRID : String := "grid"

/-- `ElementTypes.STACK` of `core/schema/types.ts` (no renderer of its
own: rendered by the container fallback). -/
def STACK : String := "stack"

/-- `ElementTypes.RECTANGLE` of `core/schema/types.ts`. -/
def RECTANGLE : String := "rectangle"

/-- `ElementTypes.CIRCLE` of `core/schema/types.ts`. -/
def CIRCLE : String := "circle"

/-- `ElementTypes.LINE` of `core/schema/types.ts` (no renderer of its
own: rendered by the container fallback). -/
def LINE : String := "line"

/-- `ElementTypes.CHART` of `core/schema/types.ts` (no renderer of its
own: rendered by the container fallback). -/
def CHART : String := "chart"

/-- `ElementTypes.PROGRESS` of `core/schema/types.ts` (no renderer of
its own: rendered by the container fallback). -/
def PROGRESS : String := "progress"

/-- `ElementTypes.CUSTOM` of `core/schema/types.ts` (no renderer of its
own: rendered by the container fallback). -/
def CUSTOM : String := "custom"

/-- `ElementTypes.CANVAS` of `core/schema/types.ts`. -/
def CANVAS : String := "canvas"

/-- `ElementTypes.WORKLET` of `core/schema/types.ts`. -/
def WORKLET : String := "worklet"

end ElementTypes

/-- The render context (mode, theme, zoom, editing flags). -/
structure RenderContext where
  mode : String
  theme : String
  zoom : ℚ
  isEditing : Bool
  showGuides : Bool
  showGrid : Bool

/-- Lookup in a string-keyed association list (a JavaScript object or
`Map` read). -/
def lookupAssoc (l : List (String × String)) (k : String) : Option String :=
  (l.find? (fun p => p.1 == k)).map (fun p => p.2)

/-- Assignment into a string-keyed association list (a JavaScript
property write): overwrites an existing key, otherwise appends. -/
def setAssoc (l : List (String × String)) (k v : String) : List (String × String) :=
  if l.any (fun p => p.1 == k) then
    l.map (fun p => if p.1 == k then (k, v) else p)
  else l ++ [(k, v)]

/-- Lookup in an optional props bag (`element.props?.key`). -/
def lookupBag (bag : Option PropsBag) (k : String) : Option String :=
  match bag with
  | none => none
  | some l => lookupAssoc l k

/-- The JavaScript expression `x || d` on strings: `undefined` and the
empty string are falsy and fall back to the default. -/
def jsStr (o : Option String) (d : String) : String :=
  match o with
  | none => d
  | some v => if v = "" then d else v

/-- The props record the engine attaches to every rendered element.  The
`onClick`/`onMouseEnter`/`onMouseLeave` handlers are functions, not
data, and are omitted; the `Object.assign(props, element.props)` merge
and the `data-*` attributes land in `extra`. -/
structure RProps where
  key : String
  dataElementId : String
  dataElementType : String
  className : String
  style : List (String × String)
  extra : List (String × String)

/-- A produced React element: a DOM tag, the props, an optional string
child (text content) and optional element children. -/
inductive ReactElement : Type where
  | mk (tag : String) (props : RProps) (textChild : Option String)
      (elemChildren : Option (List ReactElement))

/-- The DOM tag of a rendered element. -/
def ReactElement.tag : ReactElement → String
  | .mk tag _ _ _ => tag

namespace RenderEngine

/-- `createElementClass`: base classes, state classes (in source order:
selected, hovered, locked, active) and the editing class, joined with
spaces. -/
def createElementClass (element : ElementData) (context : RenderContext) : String :=
  String.intercalate " "
    (["editor-element", "element-" ++ element.type] ++
      (if element.state.selected then ["element-selected"] else []) ++
      (if element.state.hovered then ["element-hovered"] else []) ++
      (if element.state.locked then ["element-locked"] else []) ++
      (if element.state.active then ["element-active"] else []) ++
      (if context.isEditing then ["element-editable"] else []))

/-- `styleUtils.normalizeStyle`: copies the style dropping
`undefined`/`null` entries; in the embedding such entries are already
absent, so only the missing-style default remains. -/
def normalizeStyle (style : Option ElementStyle) : List (String × String) :=
  style.getD []

/-- `createElementStyle`: the normalized element style, plus a scale
transform when the context zoom is not 1, plus a dashed outline for a
selected element when guides are shown. -/
def createElementStyle (element : ElementData) (context : RenderContext) :
    List (String × String) :=
  let style := normalizeStyle (some element.style)
  let style :=
    if context.zoom ≠ 1 then
      setAssoc (setAssoc style "transform" ("scale(" ++ toString context.zoom ++ ")"))
        "transformOrigin" "top left"
    else style
  if context.showGuides && element.state.selected then
    setAssoc (setAssoc style "outline" "2px dashed #1677ff") "outlineOffset" "2px"
  else style

/-- `createElementProps`. -/
def createElementProps (element : ElementData) (context : RenderContext) : RProps :=
  { key := element.id
    dataElementId := element.id
    dataElementType := element.type
    className := createElementClass element context
    style := createElementStyle element context
    extra := (element.props.getD []) ++
      (element.data.getD []).map (fun p => ("data-" ++ p.1, p.2)) }

/-- `renderContainer`: `createElement('div', props, children)`. -/
def renderContainer (element : ElementData) (context : RenderContext)
    (children : Option (List ReactElement)) : ReactElement :=
  .mk "div" (createElementProps element context) none children

/-- `renderText`: a `span` with the `content` prop as text; when the
mode allows worklets and the `text-renderer` worklet is loaded (the
`ws` oracle), CSS custom properties and a `paint(textRenderer)`
background are added to the style. -/
def renderText (ws : String → Bool) (element : ElementData) (context : RenderContext)
    (_children : Option (List ReactElement)) : ReactElement :=
  let props := createElementProps element context
  let content := jsStr (lookupBag element.props "content") ""
  let props :=
    if (context.mode == "worklet" || context.mode == "auto") && ws "text-renderer" then
      let style2 :=
        setAssoc (setAssoc (setAssoc (setAssoc (setAssoc (setAssoc props.style
          "--text-content" content)
          "--text-color" (jsStr (lookupAssoc element.style "color") "currentColor"))
          "--font-size" (jsStr (lookupAssoc element.style "fontSize") "16px"))
          "--font-family" (jsStr (lookupAssoc element.style "fontFamily") "inherit"))
          "--font-weight" (jsStr (lookupAssoc element.style "fontWeight") "normal"))
          "backgroundImage" "paint(textRenderer)"
      { props with style := style2 }
    else props
  .mk "span" props (some content) none

/-- `renderImage`: an `img` with `src` and `alt` from the props bag. -/
def renderImage (element : ElementData) (context : RenderContext)
    (_children : Option (List ReactElement)) : ReactElement :=
  let props := createElementProps element context
  let extra2 :=
    setAssoc (setAssoc props.extra "src" (jsStr (lookupBag element.props "src") ""))
      "alt" (jsStr (lookupBag element.props "alt") "")
  let props := { props with extra := extra2 }
  .mk "img" props none none

/-- `renderButton`: a `button` whose children are `children || text`
(an `undefined` children array falls back to the `text` prop). -/
def renderButton (element : ElementData) (context : RenderContext)
    (children : Option (List ReactElement)) : ReactElement :=
  let props := createElementProps element context
  let text := jsStr (lookupBag element.props "text") ""
  match children with
  | some cs => .mk "button" props none (some cs)
  | none => .mk "button" props (some text) none

/-- `renderInput`: an `input` with type/placeholder/value/disabled from
the props bag (the boolean `disabled || false` default is modelled as
the string `"false"`). -/
def renderInput (element : ElementData) (context : RenderContext)
    (_children : Option (List ReactElement)) : ReactElement :=
  let props := createElementProps element context
  let extra2 :=
    setAssoc (setAssoc (setAssoc (setAssoc props.extra
      "type" (jsStr (lookupBag element.props "type") "text"))
      "placeholder" (jsStr (lookupBag element.props "placeholder") ""))
      "value" (jsStr (lookupBag element.props "value") ""))
      "disabled" ((lookupBag element.props "disabled").getD "false")
  let props := { props with extra := extra2 }
  .mk "input" props none none

/-- `renderRectangle`: a `div` with children. -/
def renderRectangle (element : ElementData) (context : RenderContext)
    (children : Option (List ReactElement)) : ReactElement :=
  .mk "div" (createElementProps element context) none children

/-- `renderCircle`: a `div` with children. -/
def renderCircle (element : ElementData) (context : RenderContext)
    (children : Option (List ReactElement)) : ReactElement :=
  .mk "div" (createElementProps element context) none children

/-- `renderFlex`: a `div` with children. -/
def renderFlex (element : ElementData) (context : RenderContext)
    (children : Option (List ReactElement)) : ReactElement :=
  .mk "div" (createElementProps element context) none children

/-- `renderGrid`: a `div` with children. -/
def renderGrid (element : ElementData) (context : RenderContext)
    (children : Option (List ReactElement)) : ReactElement :=
  .mk "div" (createElementProps element context) none children

/-- `renderCanvas`: a `div` (no children); when the mode allows worklets
and the `canvas-engine` worklet is loaded, canvas custom properties
(with the hard-coded `JSON.stringify` gradient payload) and a
`paint(canvasEngine)` background are added. -/
def renderCanvas (ws : String → Bool) (element : ElementData) (context : RenderContext)
    (_children : Option (List ReactElement)) : ReactElement :=
  let props := createElementProps element context
  let props :=
    if (context.mode == "worklet" || context.mode == "auto") && ws "canvas-engine" then
      let style2 :=
        setAssoc (setAssoc (setAssoc props.style
          "--canvas-type" "gradient")
          "--canvas-data"
          "\x7b\"type\":\"linear\",\"colors\":[\x7b\"color\":\"#1677ff\",\"stop\":\"0%\"\x7d,\x7b\"color\":\"#52c41a\",\"stop\":\"100%\"\x7d]\x7d")
          "backgroundImage" "paint(canvasEngine)"
      { props with style := style2 }
    else props
  .mk "div" props none none

/-- `renderWorklet`: a `div`; when the `<workletType>-renderer` worklet
is loaded, worklet custom properties and a `paint(...Renderer)`
background are added (the `workletData || {}` stringification is the
stored string, defaulting to an empty JSON object). -/
def renderWorklet (ws : String → Bool) (element : ElementData) (context : RenderContext)
    (_children : Option (List ReactElement)) : ReactElement :=
  let props := createElementProps element context
  let workletType := jsStr (lookupBag element.props "workletType") "text"
  let props :=
    if ws (workletType ++ "-renderer") then
      let style2 :=
        setAssoc (setAssoc (setAssoc props.style
          "--worklet-type" workletType)
          "--worklet-data" ((lookupBag element.props "workletData").getD "\x7b\x7d"))
          "backgroundImage" ("paint(" ++ workletType ++ "Renderer)")
      { props with style := style2 }
    else props
  .mk "div" props none none

/-- The eleven built-in renderers. -/
inductive BuiltinRenderer where
  | container
  | text
  | image
  | button
  | input
  | rectangle
  | circle
  | flex
  | grid
  | canvas
  | worklet
deriving DecidableEq

/-- The `renderers` lookup table of `getBuiltInRenderer`, keyed by
element type tag. -/
def renderersTable : List (String × BuiltinRenderer) :=
  [(ElementTypes.CONTAINER, .container),
    (ElementTypes.TEXT, .text),
    (ElementTypes.IMAGE, .image),
    (ElementTypes.BUTTON, .button),
    (ElementTypes.INPUT, .input),
    (ElementTypes.RECTANGLE, .rectangle),
    (ElementTypes.CIRCLE, .circle),
    (ElementTypes.FLEX, .flex),
    (ElementTypes.GRID, .grid),
    (ElementTypes.CANVAS, .canvas),
    (ElementTypes.WORKLET, .worklet)]

/-- `getBuiltInRenderer`: table lookup with the container renderer as
the fallback for unknown types. -/
def getBuiltInRenderer (type : String) : BuiltinRenderer :=
  ((renderersTable.find? (fun p => p.1 == type)).map (fun p => p.2)).getD .container

/-- Dispatch of a built-in renderer. -/
def applyBuiltin (ws : String → Bool) (r : BuiltinRenderer) (element : ElementData)
    (context : RenderContext) (children : Option (List ReactElement)) : ReactElement :=
  match r with
  | .container => renderContainer element context children
  | .text => renderText ws element context children
  | .image => renderImage element context children
  | .button => renderButton element context children
  | .input => renderInput element context children
  | .rectangle => renderRectangle element context children
  | .circle => renderCircle element context children
  | .flex => renderFlex element context children
  | .grid => renderGrid element context children
  | .canvas => renderCanvas ws element context children
  | .worklet => renderWorklet ws element context children

/-- `renderChildren`: returns `undefined` when there are no children
ids, and — the store lookup being left unimplemented in the source —
also returns `undefined` otherwise. -/
def renderChildren (element : ElementData) : Option (List ReactElement) :=
  match element.childrenIds with
  | none => none
  | some ids => if ids.length = 0 then none else none

/-- A custom renderer, as registered with `registerRenderer`. -/
def CustomRenderer : Type :=
  ElementData → RenderContext → Option (List ReactElement) → Option ReactElement

/-- The engine instance state: context, options (`recursive`,
`maxDepth`), the recursion depth counter and the registered custom
renderers. -/
structure RenderEngineState where
  context : RenderContext
  recursive : Bool
  maxDepth : Option Nat
  depth : Nat
  customRenderers : List (String × CustomRenderer)

/-- `RenderEngine.render`: gives up at the depth limit
(`maxDepth || 20`), skips hidden elements, prefers a registered custom
renderer, and otherwise applies the built-in renderer for the element's
type.  The result is paired with the new depth counter (the source
increments it and only decrements on the built-in path, leaking the
increment on the hidden and custom-renderer returns). -/
def render (ws : String → Bool) (st : RenderEngineState) (element : ElementData) :
    Option ReactElement × Nat :=
  if st.depth ≥ jsOrNat st.maxDepth 20 then (none, st.depth)
  else
    if element.state.hidden then (none, st.depth + 1)
    else
      match (st.customRenderers.find? (fun p => p.1 == element.type)).map (fun p => p.2) with
      | some customRenderer =>
        (customRenderer element st.context
          (if st.recursive then renderChildren element else none), st.depth + 1)
      | none =>
        (some (applyBuiltin ws (getBuiltInRenderer element.type) element st.context
          (if st.recursive then renderChildren element else none)), st.depth + 1 - 1)

/-- The DOM tag each built-in renderer produces. -/
def rendererTag : BuiltinRenderer → String
  | .text => "span"
  | .image => "img"
  | .button => "button"
  | .input => "input"
  | _ => "div"

/-- The DOM tag the built-in lookup table assigns to a type. -/
def builtinTag (type : String) : String :=
  rendererTag (getBuiltInRenderer type)

/-- Every built-in renderer produces an element whose tag is the one the
lookup table assigns to it. -/
theorem applyBuiltin_tag (ws : String → Bool) (r : BuiltinRenderer) (element : ElementData)
    (context : RenderContext) (children : Option (List ReactElement)) :
    (applyBuiltin ws r element context children).tag = rendererTag r := by
  cases r <;> first
    | rfl
    | (cases children <;> rfl)

end RenderEngine

/-- Claim C8: for every element whose `state.hidden` is not true, whose
type has no registered custom renderer and with recursion depth below
`maxDepth || 20`, `render` produces a React element whose DOM tag is the
one the built-in lookup table assigns to the element's type — `text`
yields `span`, `image` yields `img`, `button` yields `button`, `input`
yields `input`, the seven remaining listed types yield `div`, and any
type outside the table falls back to the container renderer's `div`;
in particular the five further types declared in `core/schema/types.ts`
without a renderer of their own (`stack`, `line`, `chart`, `progress`,
`custom`) also yield `div`. -/
theorem c8_type_to_dom_tag_lookup (ws : String → Bool)
    (st : RenderEngine.RenderEngineState) (element : ElementData)
    (hhidden : element.state.hidden = false)
    (hcustom : st.customRenderers.find? (fun p => p.1 == element.type) = none)
    (hdepth : st.depth < jsOrNat st.maxDepth 20) :
    (∃ re, (RenderEngine.render ws st element).1 = some re ∧
      re.tag = RenderEngine.builtinTag element.type) ∧
    RenderEngine.builtinTag ElementTypes.TEXT = "span" ∧
    RenderEngine.builtinTag ElementTypes.IMAGE = "img" ∧
    RenderEngine.builtinTag ElementTypes.BUTTON = "button" ∧
    RenderEngine.builtinTag ElementTypes.INPUT = "input" ∧
    (∀ ty ∈ [ElementTypes.CONTAINER, ElementTypes.RECTANGLE, ElementTypes.CIRCLE,
      ElementTypes.FLEX, ElementTypes.GRID, ElementTypes.CANVAS, ElementTypes.WORKLET],
      RenderEngine.builtinTag ty = "div") ∧
    (∀ ty ∈ [ElementTypes.STACK, ElementTypes.LINE, ElementTypes.CHART,
      ElementTypes.PROGRESS, ElementTypes.CUSTOM],
      RenderEngine.builtinTag ty = "div") ∧
    (∀ ty, ty ∉ [ElementTypes.CONTAINER, ElementTypes.TEXT, ElementTypes.IMAGE,
      ElementTypes.BUTTON, ElementTypes.INPUT, ElementTypes.RECTANGLE, ElementTypes.CIRCLE,
      ElementTypes.FLEX, ElementTypes.GRID, ElementTypes.CANVAS, ElementTypes.WORKLET] →
      RenderEngine.builtinTag ty = "div") := by
  refine ⟨?_, by decide, by decide, by decide, by decide, by decide, by decide, ?_⟩
  · have h1 : ¬ (st.depth ≥ jsOrNat st.maxDepth 20) := not_le.mpr hdepth
    refine ⟨RenderEngine.applyBuiltin ws (RenderEngine.getBuiltInRenderer element.type)
      element st.context
      (if st.recursive then RenderEngine.renderChildren element else none), ?_, ?_⟩
    · simp only [RenderEngine.render, if_neg h1, hhidden, Bool.false_eq_true, if_false,
        hcustom, Option.map_none']
    · exact RenderEngine.applyBuiltin_tag ws _ element st.context _
  · intro ty hty
    cases hf : RenderEngine.renderersTable.find? (fun p => p.1 == ty) with
    | none =>
      simp [RenderEngine.builtinTag, RenderEngine.getBuiltInRenderer, hf,
        RenderEngine.rendererTag]
    | some x =>
      exfalso
      apply hty
      have hx1 : x.1 = ty := by
        have := List.find?_some hf
        simpa using this
      rw [← hx1]
      have hmem := List.mem_of_find?_eq_some hf
      simp only [RenderEngine.renderersTable, List.mem_cons, List.not_mem_nil, or_false] at hmem
      rcases hmem with h | h | h | h | h | h | h | h | h | h | h <;> rw [h] <;> decide

/-- A concrete text element for the C8 witness. -/
def c8Element : ElementData :=
  { sampleElement "txt" [] with
    type := "text"
    props := some [("content", "hello")] }

/-- A concrete engine state for the C8 witness. -/
def c8EngineState : RenderEngine.RenderEngineState :=
  { context := ⟨"auto", "light", 1, false, false, false⟩
    recursive := true
    maxDepth := none
    depth := 0
    customRenderers := [] }

/-- Witness for claim C8 at a concrete text element. -/
theorem c8_type_to_dom_tag_lookup_witness :
    c8Element.state.hidden = false ∧
    c8EngineState.customRenderers.find? (fun p => p.1 == c8Element.type) = none ∧
    c8EngineState.depth < jsOrNat c8EngineState.maxDepth 20 ∧
    (∃ re, (RenderEngine.render (fun _ => false) c8EngineState c8Element).1 = some re ∧
      re.tag = RenderEngine.builtinTag c8Element.type) :=
  ⟨by decide, rfl, by decide,
    (c8_type_to_dom_tag_lookup (fun _ => false) c8EngineState c8Element
      (by decide) rfl (by decide)).1⟩

end Drawer
